import Mathlib

/-!
Shallow embedding of `executor/oci/spec_linux.go` (OCI runtime-spec
generators for a sandboxed build step) and proofs of the specification
claims about it.

Modelling conventions:
- `oci.SpecOpts` values returned by the generators are represented by the
  inductive `SpecOpt`, one constructor per distinct option closure that
  the source can return.  Options whose bodies live in this file's source
  (the bound-proc closure, the rlimit closure, the CDI closure) also get
  an executable semantics as a Lean function on `Spec`.
- Host facts queried by the source (`selinux.GetEnabled`,
  `apparmor.HostSupports`, `cdseccomp.IsEnabled`) are fields of a `Host`
  record passed explicitly.
- Go pairs `([]oci.SpecOpts, error)` become `List SpecOpt × Option String`
  (`none` = nil error).
-/

/-- Host capabilities consulted by the security generator:
`selinux.GetEnabled()`, `apparmor.HostSupports()`, `cdseccomp.IsEnabled()`. -/
structure Host where
  selinuxEnabled : Bool
  apparmorSupported : Bool
  seccompEnabled : Bool
deriving Repr, DecidableEq

/-- The security mode from `pb.SecurityMode`.  `sandbox` and `insecure` are
the two declared enum values; `unspecified` stands for any other value of the
underlying integer type, which falls through the source's `switch`. -/
inductive SecurityMode where
  | sandbox
  | insecure
  | unspecified
deriving Repr, DecidableEq

/-- The process mode (`ProcessSandbox` is the default; `NoProcessSandbox`
shares the host PID namespace). -/
inductive ProcessMode where
  | processSandbox
  | noProcessSandbox
deriving Repr, DecidableEq

/-- A mount entry of the runtime spec (`specs.Mount`). -/
structure Mount where
  destination : String
  type : String
  source : String
  options : List String
deriving Repr, DecidableEq

/-- A process resource limit entry (`specs.POSIXRlimit`); `hard` and `soft`
are the Go `uint64` values represented as naturals below `2 ^ 64`. -/
structure POSIXRlimit where
  type : String
  hard : Nat
  soft : Nat
deriving Repr, DecidableEq

/-- The process block of the runtime spec: the fields the embedded code
touches (`Args`, `Rlimits`, `SelinuxLabel`). -/
structure ProcessSpec where
  args : List String
  rlimits : List POSIXRlimit
  selinuxLabel : String
deriving Repr, DecidableEq

/-- The Linux-specific block of the runtime spec: the fields the embedded
code touches (`MaskedPaths`, `ReadonlyPaths`, `MountLabel`, and whether a
seccomp profile has been attached). -/
structure LinuxSpec where
  maskedPaths : List String
  readonlyPaths : List String
  mountLabel : String
  hasSeccompProfile : Bool
deriving Repr, DecidableEq

/-- The runtime spec descriptor (`specs.Spec`): mounts, process block,
Linux block, plus the environment and hooks that CDI injection may touch. -/
structure Spec where
  mounts : List Mount
  process : ProcessSpec
  linux : LinuxSpec
  env : List String
  hooks : List String
deriving Repr, DecidableEq

/-- A CDI device reference (`pb.CDIDevice`), identified by its name. -/
abbrev CDIDevice := String

/-- One `oci.SpecOpts` closure as returned by the generators of
`spec_linux.go`, tagged by which closure it is together with the data the
closure captures. -/
inductive SpecOpt where
  | withInsecureSpec
  | withWriteableCgroupfs
  | withWriteableSysfs
  | insecureSelinuxLabels (selinuxB : Bool)
  | withDefaultProfile
  | withApparmorProfile (profile : String)
  | sandboxSelinuxLabels (selinuxB : Bool)
  | withHostNamespace (ns : String)
  | withBoundProc
  | setRlimits (rlimits : List POSIXRlimit)
  | withCDIDevices (devs : List CDIDevice)
  | withRemovedMount (dest : String)
  | withROBind (src dest : String)
  | withCGroup
deriving Repr, DecidableEq

/-- Translation of `generateSecurityOpts(mode, apparmorProfile, selinuxB)`.
The SELinux availability check runs first, before the mode switch; the
sandbox branch appends the default seccomp profile only when seccomp is
enabled, then checks AppArmor support if a profile was requested, then
appends the SELinux label closure. -/
def generateSecurityOpts (host : Host) (mode : SecurityMode)
    (apparmorProfile : String) (selinuxB : Bool) :
    List SpecOpt × Option String :=
  if selinuxB && !host.selinuxEnabled then
    ([], some "selinux is not available")
  else
    match mode with
    | .insecure =>
        ([SpecOpt.withInsecureSpec, SpecOpt.withWriteableCgroupfs,
          SpecOpt.withWriteableSysfs, SpecOpt.insecureSelinuxLabels selinuxB],
         none)
    | .sandbox =>
        let opts := if host.seccompEnabled then [SpecOpt.withDefaultProfile] else []
        if apparmorProfile ≠ "" then
          if !host.apparmorSupported then
            ([], some ("AppArmor is not supported on this host, but the profile \x27"
              ++ apparmorProfile ++ "\x27 was specified"))
          else
            (opts ++ [SpecOpt.withApparmorProfile apparmorProfile,
              SpecOpt.sandboxSelinuxLabels selinuxB], none)
        else
          (opts ++ [SpecOpt.sandboxSelinuxLabels selinuxB], none)
    | .unspecified => ([], none)

/-- Claim C2: for every Sandboxed call with a non-empty AppArmor profile on a
host without AppArmor support, `generateSecurityOpts` returns an error and an
empty mutation list, whatever the SELinux flag and the other host
capabilities. -/
theorem generateSecurityOpts_sandbox_apparmor_unsupported
    (host : Host) (profile : String) (selinuxB : Bool)
    (hp : profile ≠ "") (ha : host.apparmorSupported = false) :
    (generateSecurityOpts host .sandbox profile selinuxB).1 = [] ∧
    (generateSecurityOpts host .sandbox profile selinuxB).2 ≠ none := by
  obtain ⟨se, aa, sc⟩ := host
  simp only at ha
  subst ha
  cases se <;> cases sc <;> cases selinuxB <;>
    simp [generateSecurityOpts, hp]

/-- Witness for C2 at a concrete host and profile. -/
theorem generateSecurityOpts_sandbox_apparmor_unsupported_witness :
    ("myprofile" ≠ "" ∧ (Host.mk true false true).apparmorSupported = false) ∧
    ((generateSecurityOpts (Host.mk true false true) .sandbox "myprofile" false).1 = [] ∧
     (generateSecurityOpts (Host.mk true false true) .sandbox "myprofile" false).2 ≠ none) :=
  ⟨⟨by decide, rfl⟩,
   generateSecurityOpts_sandbox_apparmor_unsupported
     (Host.mk true false true) "myprofile" false (by decide) rfl⟩

/-- Claim C4: for every Insecure call requesting SELinux labels while SELinux
is disabled on the host, `generateSecurityOpts` fails with the
"selinux is not available" error and returns no mutation list. -/
theorem generateSecurityOpts_insecure_selinux_unavailable
    (host : Host) (profile : String) (h : host.selinuxEnabled = false) :
    generateSecurityOpts host .insecure profile true =
      ([], some "selinux is not available") := by
  simp [generateSecurityOpts, h]

/-- Witness for C4 at a concrete host. -/
theorem generateSecurityOpts_insecure_selinux_unavailable_witness :
    (Host.mk false true true).selinuxEnabled = false ∧
    generateSecurityOpts (Host.mk false true true) .insecure "" true =
      ([], some "selinux is not available") :=
  ⟨rfl, generateSecurityOpts_insecure_selinux_unavailable
    (Host.mk false true true) "" rfl⟩

/-- Counterexample to claim C5 as stated: with SecurityMode unspecified,
SELinux labels requested and SELinux disabled on the host,
`generateSecurityOpts` returns the SELinux error instead of the claimed
error-free pass-through, because the SELinux availability check precedes the
mode switch. -/
theorem generateSecurityOpts_unspecified_counterexample :
    generateSecurityOpts (Host.mk false true true) .unspecified "" true ≠
      ([], none) := by
  simp [generateSecurityOpts]

/-- Claim C5 (amended): with SecurityMode unspecified,
`generateSecurityOpts` emits no mutations and no error for any AppArmor
profile name, provided SELinux labels are not requested while SELinux is
disabled on the host (that combination fails the availability precheck that
runs before the mode switch). -/
theorem generateSecurityOpts_unspecified_passthrough
    (host : Host) (profile : String) (selinuxB : Bool)
    (h : selinuxB = false ∨ host.selinuxEnabled = true) :
    generateSecurityOpts host .unspecified profile selinuxB = ([], none) := by
  obtain ⟨se, aa, sc⟩ := host
  rcases h with h | h
  · subst h
    simp [generateSecurityOpts]
  · simp only at h
    subst h
    simp [generateSecurityOpts]

/-- Witness for the amended C5 at a concrete host. -/
theorem generateSecurityOpts_unspecified_passthrough_witness :
    (false = false ∨ (Host.mk false true true).selinuxEnabled = true) ∧
    generateSecurityOpts (Host.mk false true true) .unspecified "p" false =
      ([], none) :=
  ⟨Or.inl rfl, generateSecurityOpts_unspecified_passthrough
    (Host.mk false true true) "p" false (Or.inl rfl)⟩

/-- Claim C6: in Sandboxed mode the default seccomp profile option is among
the returned mutations exactly when seccomp is enabled on the host and the
call succeeded, and whether the call errors does not depend on seccomp
support at all (seccomp absence is silently skipped, never an error). -/
theorem generateSecurityOpts_sandbox_seccomp
    (host : Host) (profile : String) (selinuxB : Bool) :
    (SpecOpt.withDefaultProfile ∈ (generateSecurityOpts host .sandbox profile selinuxB).1 ↔
      (host.seccompEnabled = true ∧
        (generateSecurityOpts host .sandbox profile selinuxB).2 = none)) ∧
    (generateSecurityOpts { host with seccompEnabled := false } .sandbox profile selinuxB).2 =
      (generateSecurityOpts host .sandbox profile selinuxB).2 := by
  obtain ⟨se, aa, sc⟩ := host
  by_cases hp : profile = ""
  · subst hp
    cases se <;> cases aa <;> cases sc <;> cases selinuxB <;>
      simp [generateSecurityOpts]
  · cases se <;> cases aa <;> cases sc <;> cases selinuxB <;>
      simp [generateSecurityOpts, hp]

/-- Modelled from the spec: the path-prefix test used by the mount and
masked-path filters (the source's helper, defined outside the included
file).  A path matches the prefix directory when it equals it or lies
under it. -/
def hasPrefixDir (p prefixDir : String) : Bool :=
  p == prefixDir || (prefixDir ++ "/").isPrefixOf p

/-- Translation of `removeMountsWithPrefix(mounts, prefixDir)`: keep exactly
the mounts whose destination does not match the prefix directory. -/
def removeMountsWithPrefixDir (mounts : List Mount) (prefixDir : String) :
    List Mount :=
  mounts.filter (fun m => !hasPrefixDir m.destination prefixDir)

/-- The `/proc` bind mount prepended by `withBoundProc`: a bind of the
host's `/proc` with options rbind only (no read-only flag). -/
def procMount : Mount :=
  { destination := "/proc", type := "bind", source := "/proc",
    options := ["rbind"] }

/-- Translation of the closure returned by `withBoundProc()`: drop every
mount destined at or under `/proc`, prepend the host `/proc` bind mount, and
strip masked and read-only paths lying at or under `/proc`. -/
def withBoundProc (s : Spec) : Spec :=
  let mounts := removeMountsWithPrefixDir s.mounts "/proc"
  let mounts := procMount :: mounts
  let maskedPaths := s.linux.maskedPaths.filter (fun p => !hasPrefixDir p "/proc")
  let readonlyPaths := s.linux.readonlyPaths.filter (fun p => !hasPrefixDir p "/proc")
  { s with
    mounts := mounts,
    linux := { s.linux with
      maskedPaths := maskedPaths, readonlyPaths := readonlyPaths } }

/-- Translation of `generateProcessModeOpts(mode)`: host PID namespace mode
emits the host-namespace option and the bound-proc option; the default
sandboxed mode emits nothing. -/
def generateProcessModeOpts (mode : ProcessMode) :
    List SpecOpt × Option String :=
  match mode with
  | .noProcessSandbox =>
      ([SpecOpt.withHostNamespace "pid", SpecOpt.withBoundProc], none)
  | .processSandbox => ([], none)

/-- Claim C3: applying the bound-proc mutation to any spec puts the host
`/proc` bind mount (options exactly rbind, no read-only flag) first, keeps
in the tail exactly the prior mounts not destined at or under `/proc`,
leaves no masked or read-only path at or under `/proc`, and the default
sandboxed process mode emits no mutation. -/
theorem withBoundProc_spec (s : Spec) :
    (withBoundProc s).mounts =
      procMount :: removeMountsWithPrefixDir s.mounts "/proc" ∧
    procMount = { destination := "/proc", type := "bind", source := "/proc",
                  options := ["rbind"] } ∧
    (∀ m, m ∈ (withBoundProc s).mounts.tail ↔
      (m ∈ s.mounts ∧ hasPrefixDir m.destination "/proc" = false)) ∧
    (∀ p ∈ (withBoundProc s).linux.maskedPaths,
      hasPrefixDir p "/proc" = false) ∧
    (∀ p ∈ (withBoundProc s).linux.readonlyPaths,
      hasPrefixDir p "/proc" = false) ∧
    generateProcessModeOpts .processSandbox = ([], none) := by
  refine ⟨rfl, rfl, ?_, ?_, ?_, rfl⟩
  · intro m
    simp [withBoundProc, removeMountsWithPrefixDir, List.mem_filter]
  · intro p hp
    simp only [withBoundProc, List.mem_filter] at hp
    simpa using hp.2
  · intro p hp
    simp only [withBoundProc, List.mem_filter] at hp
    simpa using hp.2

/-- An Ulimit request (`pb.Ulimit`): name plus soft and hard values, which
are Go `int64`s, represented as integers. -/
structure Ulimit where
  name : String
  soft : Int
  hard : Int
deriving Repr, DecidableEq

/-- The Go conversion `uint64(x)` of an `int64` value: the value modulo
`2 ^ 64`, as a natural. -/
def uint64OfInt64 (i : Int) : Nat := (i % (2 : Int) ^ 64).toNat

/-- The resource-limit entry built for one valid Ulimit request:
type `RLIMIT_` plus the upper-cased name, hard and soft copied (through the
`uint64` conversion). -/
def rlimitEntry (u : Ulimit) : POSIXRlimit :=
  { type := "RLIMIT_" ++ u.name.toUpper,
    hard := uint64OfInt64 u.hard,
    soft := uint64OfInt64 u.soft }

/-- The accumulation loop of `generateRlimitOpts`: walk the request list,
skip nil entries, append one entry per valid request. -/
def rlimitEntries : List (Option Ulimit) → List POSIXRlimit
  | [] => []
  | none :: rest => rlimitEntries rest
  | some u :: rest => rlimitEntry u :: rlimitEntries rest

/-- Translation of `generateRlimitOpts(ulimits)`: a zero-length request list
short-circuits to no options at all; otherwise one option is returned that
assigns the accumulated entries to the process rlimit field. -/
def generateRlimitOpts (ulimits : List (Option Ulimit)) :
    List SpecOpt × Option String :=
  if ulimits.length = 0 then ([], none)
  else ([SpecOpt.setRlimits (rlimitEntries ulimits)], none)

/-- Translation of the closure inside `generateRlimitOpts`: wholesale
assignment of the spec's process rlimit field. -/
def applySetRlimits (rlimits : List POSIXRlimit) (s : Spec) : Spec :=
  { s with process := { s.process with rlimits := rlimits } }

/-- The accumulation loop keeps exactly the valid entries, in order, each
translated by `rlimitEntry`. -/
theorem rlimitEntries_eq_filterMap (us : List (Option Ulimit)) :
    rlimitEntries us = (us.filterMap id).map rlimitEntry := by
  induction us with
  | nil => rfl
  | cons u rest ih =>
      cases u <;> simp [rlimitEntries, ih]

/-- Claim C9: an empty Ulimit list yields no mutation at all; a non-empty
list yields exactly one option assigning one entry per valid request (nil
entries skipped) whose type is the upper-cased name prefixed with
`RLIMIT_` and whose hard and soft values are copied; in particular one nil
plus one valid entry produce exactly one resource-limit entry. -/
theorem generateRlimitOpts_spec (us : List (Option Ulimit)) (u : Ulimit)
    (h : us ≠ []) :
    generateRlimitOpts [] = ([], none) ∧
    generateRlimitOpts us =
      ([SpecOpt.setRlimits ((us.filterMap id).map (fun v =>
        { type := "RLIMIT_" ++ v.name.toUpper,
          hard := uint64OfInt64 v.hard,
          soft := uint64OfInt64 v.soft }))], none) ∧
    (rlimitEntries [none, some u]).length = 1 := by
  refine ⟨rfl, ?_, by simp [rlimitEntries]⟩
  have hlen : us.length ≠ 0 := by
    simpa [List.length_eq_zero] using h
  simp only [generateRlimitOpts, hlen, if_false, rlimitEntries_eq_filterMap]
  rfl

/-- Witness for C9 at a concrete request list with one nil and one valid
entry. -/
theorem generateRlimitOpts_spec_witness :
    generateRlimitOpts [none, some ⟨"nofile", 1024, 4096⟩] =
      ([SpecOpt.setRlimits [{ type := "RLIMIT_" ++ String.toUpper "nofile",
                              hard := uint64OfInt64 4096,
                              soft := uint64OfInt64 1024 }]], none) := by
  have h := (generateRlimitOpts_spec [none, some ⟨"nofile", 1024, 4096⟩]
    ⟨"nofile", 1024, 4096⟩ (by simp)).2.1
  simpa using h

/-- Claim C10: the rlimit mutation wholesale-assigns the process rlimit
field — whatever limits were previously present are replaced, not appended
to — and every other field of the spec is unchanged. -/
theorem applySetRlimits_frame (rl prior : List POSIXRlimit) (s : Spec) :
    (applySetRlimits rl
      { s with process := { s.process with rlimits := prior } }).process.rlimits = rl ∧
    (applySetRlimits rl s).mounts = s.mounts ∧
    (applySetRlimits rl s).linux = s.linux ∧
    (applySetRlimits rl s).env = s.env ∧
    (applySetRlimits rl s).hooks = s.hooks ∧
    (applySetRlimits rl s).process.args = s.process.args ∧
    (applySetRlimits rl s).process.selinuxLabel = s.process.selinuxLabel := by
  exact ⟨rfl, rfl, rfl, rfl, rfl, rfl, rfl⟩

/-- The external CDI device manager consulted by the CDI option: the outcome
of `Refresh()` (an error or nil) and the behaviour of
`InjectDevices(spec, devs...)`. -/
structure CDIManager where
  refreshErr : Option String
  injectDevices : Spec → List CDIDevice → Except String Spec

/-- An observable call made by the CDI option on the device manager. -/
inductive CDIEvent where
  | refresh
  | inject
deriving Repr, DecidableEq

/-- Translation of the `withCDIDevices` closure inside `generateCDIOpts`:
refresh the registry first (a refresh error is only logged as a warning),
then inject the devices, wrapping an injection error.  The result carries
the ordered list of manager calls, the warnings logged, and the outcome. -/
def withCDIDevices (mgr : CDIManager) (devs : List CDIDevice) (s : Spec) :
    List CDIEvent × List String × Except String Spec :=
  let warnings :=
    match mgr.refreshErr with
    | some e => ["CDI registry refresh failed: " ++ e]
    | none => []
  match mgr.injectDevices s devs with
  | .error e =>
      ([CDIEvent.refresh, CDIEvent.inject], warnings,
       .error ("CDI device injection failed: " ++ e))
  | .ok s2 => ([CDIEvent.refresh, CDIEvent.inject], warnings, .ok s2)

/-- Translation of `generateCDIOpts(manager, devs)`: a zero-length device
list short-circuits to no options; otherwise exactly one option is returned,
the CDI injection closure over the device list. -/
def generateCDIOpts (devs : List CDIDevice) :
    List SpecOpt × Option String :=
  if devs.length = 0 then ([], none)
  else ([SpecOpt.withCDIDevices devs], none)

/-- Claim C7: an empty device list yields no mutation; a non-empty list
yields exactly one mutation; that mutation calls refresh and then inject on
every run, its outcome never depends on the refresh result (a refresh
failure is only logged), and an injection failure makes it fail with the
wrapped injection error. -/
theorem generateCDIOpts_spec (mgr : CDIManager) (devs : List CDIDevice)
    (s : Spec) (hd : devs ≠ []) :
    generateCDIOpts [] = ([], none) ∧
    generateCDIOpts devs = ([SpecOpt.withCDIDevices devs], none) ∧
    (withCDIDevices mgr devs s).1 = [CDIEvent.refresh, CDIEvent.inject] ∧
    (withCDIDevices mgr devs s).2.2 =
      (withCDIDevices { mgr with refreshErr := none } devs s).2.2 ∧
    (∀ e, mgr.refreshErr = some e →
      (withCDIDevices mgr devs s).2.1 = ["CDI registry refresh failed: " ++ e]) ∧
    (∀ e, mgr.injectDevices s devs = .error e →
      (withCDIDevices mgr devs s).2.2 =
        .error ("CDI device injection failed: " ++ e)) := by
  have hlen : devs.length ≠ 0 := by
    simpa [List.length_eq_zero] using hd
  refine ⟨rfl, by simp [generateCDIOpts, hlen], ?_, ?_, ?_, ?_⟩
  · cases h : mgr.injectDevices s devs <;> simp [withCDIDevices, h]
  · cases h : mgr.injectDevices s devs <;> simp [withCDIDevices, h]
  · intro e he
    cases h : mgr.injectDevices s devs <;> simp [withCDIDevices, h, he]
  · intro e he
    simp [withCDIDevices, he]

/-- Witness for C7 at a concrete manager, device list and spec. -/
theorem generateCDIOpts_spec_witness :
    generateCDIOpts ["vendor.example.com/device=gpu0"] =
      ([SpecOpt.withCDIDevices ["vendor.example.com/device=gpu0"]], none) :=
  (generateCDIOpts_spec
    { refreshErr := none, injectDevices := fun s _ => .ok s }
    ["vendor.example.com/device=gpu0"]
    { mounts := [], process := { args := [], rlimits := [], selinuxLabel := "" },
      linux := { maskedPaths := [], readonlyPaths := [], mountLabel := "",
                 hasSeccompProfile := false },
      env := [], hooks := [] }
    (by simp)).2.1

/-- The result of `os.Stat` as the probe observes it: success, a
"not exist" error, or any other error. -/
inductive StatRes where
  | found
  | notExist
  | otherError
deriving Repr, DecidableEq

/-- Go's `os.IsNotExist` applied to the stat outcome. -/
def isNotExist : StatRes → Bool
  | .notExist => true
  | _ => false

/-- The process-wide memoization cell: whether the `sync.Once` has run and
the cached `supportsCgroupNS` value (both zero-valued initially). -/
structure CgroupNSState where
  onceDone : Bool
  supportsCgroupNS : Bool
deriving Repr, DecidableEq

/-- The zero value of the memoization cell at process start. -/
def initialCgroupNSState : CgroupNSState :=
  { onceDone := false, supportsCgroupNS := false }

/-- The body of the `sync.Once` closure in `cgroupV2NamespaceSupported`:
return early (leaving the flag false) if either stat reports "not exist",
otherwise record support. -/
def cgroupNSProbe (stat : String → StatRes) : Bool :=
  if isNotExist (stat "/proc/self/ns/cgroup") then false
  else if isNotExist (stat "/sys/fs/cgroup/cgroup.subtree_control") then false
  else true

/-- Translation of `cgroupV2NamespaceSupported()` as a step on the
memoization cell: if the once-cell already ran, return the cached value
without touching the filesystem; otherwise run the probe and cache it.  The
third Boolean reports whether the filesystem was probed on this call. -/
def cgroupV2NamespaceSupported (stat : String → StatRes)
    (st : CgroupNSState) : Bool × CgroupNSState × Bool :=
  if st.onceDone then (st.supportsCgroupNS, st, false)
  else
    let v := cgroupNSProbe stat
    (v, { onceDone := true, supportsCgroupNS := v }, true)

/-- Claim C8: from the initial state the probe returns true exactly when
neither path stats as "not exist" (absence yields false, not a failure), and
the result is cached: every later call, even against a changed filesystem,
returns the same value, the same cell, and performs no probe. -/
theorem cgroupV2NamespaceSupported_spec (stat : String → StatRes) :
    ((cgroupV2NamespaceSupported stat initialCgroupNSState).1 = true ↔
      (stat "/proc/self/ns/cgroup" ≠ StatRes.notExist ∧
       stat "/sys/fs/cgroup/cgroup.subtree_control" ≠ StatRes.notExist)) ∧
    (∀ stat2 : String → StatRes,
      cgroupV2NamespaceSupported stat2
          (cgroupV2NamespaceSupported stat initialCgroupNSState).2.1 =
        ((cgroupV2NamespaceSupported stat initialCgroupNSState).1,
         (cgroupV2NamespaceSupported stat initialCgroupNSState).2.1,
         false)) := by
  constructor
  · cases h1 : stat "/proc/self/ns/cgroup" <;>
      cases h2 : stat "/sys/fs/cgroup/cgroup.subtree_control" <;>
      simp [cgroupV2NamespaceSupported, initialCgroupNSState, cgroupNSProbe,
        isNotExist, h1, h2]
  · intro stat2
    simp [cgroupV2NamespaceSupported, initialCgroupNSState]

/-- A containerd mount descriptor (`mount.Mount`): the fields `sub`
touches. -/
structure CtrMount where
  type : String
  source : String
  options : List String
deriving Repr, DecidableEq

/-- The outcome of `sub`: the rewritten mount (whose unmount callback the
caller receives alongside) or an error message. -/
inductive SubOutcome where
  | ok (m : CtrMount)
  | err (msg : String)
deriving Repr, DecidableEq

/-- The filesystem and mounter behaviour observed by `sub`, per attempt:
`rootPath` is the (deterministic, lexical) result of
`fs.RootPath(root, subPath)`; `openFile a src` is the result of opening
`src` with `O_PATH` on attempt `a` (yielding a descriptor number);
`readlink a p` is the result of reading the link `p` under
`/proc/self/fd` on attempt `a`; `mountRes` is the mountpoint returned by
the forced single-mount remount once verification succeeds. -/
structure SubEnv where
  rootPath : Except String String
  openFile : Nat → String → Except String Nat
  readlink : Nat → String → Except String String
  mountRes : Except String String

/-- Translation of the retry loop of `sub(m, subPath)`.  `attempt` numbers
the iterations from 1; `retries` is the remaining budget exactly as in the
source (decremented on a mismatch, failing once it reaches zero).  The
returned number is the attempt on which the loop terminated. -/
def subLoop (env : SubEnv) (m : CtrMount) (subPath : String)
    (attempt retries : Nat) : SubOutcome × Nat :=
  match env.rootPath with
  | .error e => (.err e, attempt)
  | .ok src =>
    match env.openFile attempt src with
    | .error e => (.err e, attempt)
    | .ok fd =>
      match env.readlink attempt ("/proc/self/fd/" ++ toString fd) with
      | .error e => (.err e, attempt)
      | .ok resolved =>
        if resolved ≠ src then
          match retries with
          | 0 => (.err ("unable to safely resolve subpath " ++ subPath), attempt)
          | 1 => (.err ("unable to safely resolve subpath " ++ subPath), attempt)
          | r + 2 => subLoop env m subPath (attempt + 1) (r + 1)
        else
          match env.mountRes with
          | .error e => (.err e, attempt)
          | .ok mp => (.ok { m with source := mp }, attempt)

/-- Translation of `sub(m, subPath)`: run the retry loop with the
configured budget of 10. -/
def sub (env : SubEnv) (m : CtrMount) (subPath : String) : SubOutcome × Nat :=
  subLoop env m subPath 1 10

/-- Attempt `a` observes a symlink swap: the open succeeds, the read-back
through the descriptor's `/proc/self/fd` entry succeeds, and the re-read
path differs from the lexically computed path `src`. -/
def mismatchAt (env : SubEnv) (src : String) (a : Nat) : Prop :=
  ∃ fd, env.openFile a src = .ok fd ∧
    ∃ r, env.readlink a ("/proc/self/fd/" ++ toString fd) = .ok r ∧ r ≠ src

/-- When every attempt in the current budget observes a mismatch, the loop
terminates with the race error on the last budgeted attempt. -/
theorem subLoop_all_mismatch (env : SubEnv) (m : CtrMount)
    (subPath src : String) (hroot : env.rootPath = .ok src) :
    ∀ r a, 1 ≤ r → (∀ k, a ≤ k → k ≤ a + r - 1 → mismatchAt env src k) →
      subLoop env m subPath a r =
        (.err ("unable to safely resolve subpath " ++ subPath), a + r - 1) := by
  intro r
  induction r with
  | zero => intro a h; omega
  | succ n ih =>
      intro a _ hmis
      obtain ⟨fd, hopen, rl, hrl, hne⟩ := hmis a (le_refl a) (by omega)
      match n, ih with
      | 0, _ =>
          simp [subLoop, hroot, hopen, hrl, hne]
      | Nat.succ n', ih =>
          have hstep : subLoop env m subPath a (n' + 2) =
              subLoop env m subPath (a + 1) (n' + 1) := by
            simp [subLoop, hroot, hopen, hrl, hne]
          rw [hstep, ih (a + 1) (by omega)
            (fun k hk1 hk2 => hmis k (by omega) (by omega))]
          congr 1
          omega

/-- Claim C1: if the lexical path computation succeeds and on every one of
the 10 budgeted attempts the path re-read through `/proc/self/fd` differs
from the lexically computed path, `sub` fails on exactly the 10th attempt
with the distinct race error naming the subpath, not an ordinary I/O
error. -/
theorem sub_race_budget_exhaustion (env : SubEnv) (m : CtrMount)
    (subPath src : String) (hroot : env.rootPath = .ok src)
    (hmis : ∀ k, 1 ≤ k → k ≤ 10 → mismatchAt env src k) :
    sub env m subPath =
      (.err ("unable to safely resolve subpath " ++ subPath), 10) := by
  have h := subLoop_all_mismatch env m subPath src hroot 10 1 (by omega)
    (fun k hk1 hk2 => hmis k hk1 (by omega))
  simpa [sub] using h

/-- An environment in which a symlink swap is observed on every attempt:
the re-read path never matches the computed one. -/
def subEnvRace : SubEnv :=
  { rootPath := .ok "/tmp/root/a/b"
    openFile := fun _ _ => .ok 7
    readlink := fun _ _ => .ok "/tmp/evil"
    mountRes := .ok "/tmp/mp" }

/-- Witness for C1 at a concrete environment, mount and subpath. -/
theorem sub_race_budget_exhaustion_witness :
    sub subEnvRace { type := "bind", source := "/tmp/root", options := [] }
        "a/b" =
      (.err ("unable to safely resolve subpath " ++ "a/b"), 10) :=
  sub_race_budget_exhaustion subEnvRace
    { type := "bind", source := "/tmp/root", options := [] } "a/b"
    "/tmp/root/a/b" rfl
    (fun k _ _ => ⟨7, rfl, "/tmp/evil", rfl, by decide⟩)
